import Mathlib

/-!
Shallow embedding of the route handlers of the registration server
(`src/routes.rs`) together with a model of the storage interface they
call into.  The storage engine itself is not part of the source tree, so
its operations are modelled from the `StoreInterface`
contract of the specification; the route handlers below are translated directly from
`routes.rs`.
-/

namespace RegServer

/-- One domain record, the `DomainRecord` row handled by `routes.rs`:
token, local name, remote name, optional DNS challenge, optional local
and public IPs, description, optional email and timestamp. -/
structure DomainRecord where
  token : String
  local_name : String
  remote_name : String
  dns_challenge : Option String
  local_ip : Option String
  public_ip : Option String
  description : String
  email : Option String
  timestamp : Int
deriving DecidableEq

/-- Modelled from the spec: the visible state of the store is the set of
domain records plus the discovery mappings `discoveryId -> token`
(`StoreInterface`, spec section 4.4).  Records and mappings are kept in
lists in insertion order. -/
structure Store where
  records : List DomainRecord
  discoveries : List (String × String)
deriving DecidableEq

/-- Modelled from the spec: `getByToken` loads the record for a token;
absence is the `NoRecord` outcome, modelled as `none`. -/
def get_record_by_token (s : Store) (token : String) : Option DomainRecord :=
  s.records.find? (fun r => r.token == token)

/-- Modelled from the spec: `getByName` loads the record whose
`remoteName` equals the queried name. -/
def get_record_by_name (s : Store) (name : String) : Option DomainRecord :=
  s.records.find? (fun r => r.remote_name == name)

/-- Modelled from the spec: `getByPublicIp` returns the set of records
whose `publicIp` equals the queried IP. -/
def get_records_by_public_ip (s : Store) (ip : String) : List DomainRecord :=
  s.records.filter (fun r => r.public_ip == some ip)

/-- Modelled from the spec: `addRecord` persists a new record. -/
def add_record (s : Store) (r : DomainRecord) : Store :=
  { s with records := s.records ++ [r] }

/-- Modelled from the spec: `updateRecord` is a full replace of the
record bearing the same token. -/
def update_record (s : Store) (new : DomainRecord) : Store :=
  { s with records := s.records.map (fun r => if r.token = new.token then new else r) }

/-- Modelled from the spec: `deleteByToken` removes the records bearing
the token and reports how many were deleted. -/
def delete_record_by_token (s : Store) (token : String) : Nat × Store :=
  ((s.records.filter (fun r => r.token == token)).length,
   { s with records := s.records.filter (fun r => !(r.token == token)) })

/-- Modelled from the spec: `addDiscovery(token, id)` creates the
mapping `id -> token`; a discovery id references exactly one token at
any time, so a previous mapping for the same id is replaced. -/
def add_discovery (s : Store) (token : String) (disco : String) : Store :=
  { s with discoveries :=
      s.discoveries.filter (fun p => !(p.1 == disco)) ++ [(disco, token)] }

/-- Modelled from the spec: `deleteDiscovery(id)` removes the mapping
for the id. -/
def delete_discovery (s : Store) (disco : String) : Store :=
  { s with discoveries := s.discoveries.filter (fun p => !(p.1 == disco)) }

/-- Modelled from the spec: `getTokenForDiscovery(id)` resolves a
discovery id to the token it maps to; absence is `NoRecord`. -/
def get_token_for_discovery (s : Store) (disco : String) : Option String :=
  (s.discoveries.find? (fun p => p.1 == disco)).map (fun p => p.2)

/-- Outcome of a route handler as seen by the client: a 200 OK carrying
a body, a 400 BadRequest, or a 501 internal server error. -/
inductive ApiResponse (α : Type) where
  | ok (body : α)
  | badRequest
  | internalServerError
deriving DecidableEq

/-- A discovery result entry serialized by `ping` and `discovery`:
an href and a description (`Discovered` in `routes.rs`). -/
structure Discovered where
  href : String
  desc : String
deriving DecidableEq

/-- Result of `subscribe`: the name/token pair on success, the
`UnavailableName` error body with status 400, a bare 400, or a 501. -/
inductive SubscribeResult where
  | ok (name : String) (token : String)
  | unavailableName
  | badRequest
  | internalServerError
deriving DecidableEq

/-- Translation of `domain_for_name` in `routes.rs`: the lowercased
concatenation of the requested name, the fixed infix `.box.`, the
configured registry domain and a final dot. -/
def domain_for_name (name : String) (domain : String) : String :=
  (name ++ ".box." ++ domain ++ ".").toLower

/-- Translation of the `register` handler (`routes.rs`): look the record
up by token; if present, rewrite it with the supplied local IP, the
public IP of the caller and the current time, keeping the loaded challenge,
email and description; an unknown token is a 400.  The current time is
passed in as `now`. -/
def register (s : Store) (token : String) (local_ip : String)
    (public_ip : String) (now : Int) : ApiResponse Unit × Store :=
  match get_record_by_token s token with
  | some record =>
      let new_record : DomainRecord :=
        { token := record.token
          local_name := record.local_name
          remote_name := record.remote_name
          dns_challenge := record.dns_challenge
          local_ip := some local_ip
          public_ip := some public_ip
          description := record.description
          email := record.email
          timestamp := now }
      (ApiResponse.ok (), update_record s new_record)
  | none => (ApiResponse.badRequest, s)

/-- Translation of the `info` handler (`routes.rs`): return the record
for the token, 400 when the token is unknown. -/
def info (s : Store) (token : String) : ApiResponse DomainRecord :=
  match get_record_by_token s token with
  | some record => ApiResponse.ok record
  | none => ApiResponse.badRequest

/-- Translation of the `ping` handler (`routes.rs`): fetch every record
whose public IP equals that of the caller and map each to a `Discovered` whose
href is `https://` followed by the local name minus its final character. -/
def ping (s : Store) (remote_ip : String) : ApiResponse (List Discovered) :=
  ApiResponse.ok ((get_records_by_public_ip s remote_ip).map (fun item =>
    { href := "https://" ++ item.local_name.dropRight 1
      desc := item.description }))

/-- Translation of the `unsubscribe` handler (`routes.rs`): delete by
token; zero deletions is a 400. -/
def unsubscribe (s : Store) (token : String) : ApiResponse Unit × Store :=
  match delete_record_by_token s token with
  | (0, s) => (ApiResponse.badRequest, s)
  | (_, s) => (ApiResponse.ok (), s)

/-- Translation of the `subscribe` handler (`routes.rs`): compute the
full name with `domain_for_name`; if a record with that name exists,
answer `UnavailableName`; otherwise store a new record with local name
`local.<full name>`, the given or default description, no challenge, no
IPs and timestamp 0, and return the name and token.  The freshly minted
token (a UUID in the source) is passed in as `token`. -/
def subscribe (s : Store) (name : String) (desc : Option String)
    (token : String) (domain : String) : SubscribeResult × Store :=
  let full_name := domain_for_name name domain
  match get_record_by_name s full_name with
  | some _ => (SubscribeResult.unavailableName, s)
  | none =>
      let local_name := "local." ++ full_name
      let description := match desc with
        | some d => d
        | none => name ++ "\x27s server"
      let record : DomainRecord :=
        { token := token
          local_name := local_name
          remote_name := full_name
          dns_challenge := none
          local_ip := none
          public_ip := none
          description := description
          email := none
          timestamp := 0 }
      (SubscribeResult.ok name token, add_record s record)

/-- Translation of the `dnsconfig` handler (`routes.rs`): look the
record up by token; if present, rewrite it with the supplied challenge,
keeping the loaded IPs, email, description and timestamp; an unknown
token is a 400. -/
def dnsconfig (s : Store) (token : String) (challenge : String) :
    ApiResponse Unit × Store :=
  match get_record_by_token s token with
  | some record =>
      let new_record : DomainRecord :=
        { token := record.token
          local_name := record.local_name
          remote_name := record.remote_name
          dns_challenge := some challenge
          local_ip := record.local_ip
          public_ip := record.public_ip
          description := record.description
          email := record.email
          timestamp := record.timestamp }
      (ApiResponse.ok (), update_record s new_record)
  | none => (ApiResponse.badRequest, s)

/-- Translation of the `adddiscovery` handler (`routes.rs`): require the
token to name an existing record, then add the discovery mapping. -/
def adddiscovery (s : Store) (token : String) (disco : String) :
    ApiResponse Unit × Store :=
  match get_record_by_token s token with
  | some _ => (ApiResponse.ok (), add_discovery s token disco)
  | none => (ApiResponse.badRequest, s)

/-- Translation of the `revokediscovery` handler (`routes.rs`): require
the token to name an existing record, then delete the mapping by
discovery id alone. -/
def revokediscovery (s : Store) (token : String) (disco : String) :
    ApiResponse Unit × Store :=
  match get_record_by_token s token with
  | some _ => (ApiResponse.ok (), delete_discovery s disco)
  | none => (ApiResponse.badRequest, s)

/-- Translation of the `discovery` handler (`routes.rs`): resolve the
discovery id to its token (unknown id is a 400); fetch the records whose
public IP equals that of the caller, keep those bearing the resolved token and
map them to `Discovered` entries keyed on the local name; if none
remain, fall back to a single entry keyed on the remote name of the
record loaded by token, answering 400 when that load fails. -/
def discovery (s : Store) (disco : String) (remote_ip : String) :
    ApiResponse (List Discovered) :=
  match get_token_for_discovery s disco with
  | some token =>
      let records := get_records_by_public_ip s remote_ip
      let results : List Discovered :=
        (records.filter (fun item => item.token == token)).map (fun item =>
          { href := "https://" ++ item.local_name.dropRight 1
            desc := item.description })
      if results.isEmpty then
        match get_record_by_token s token with
        | some record =>
            ApiResponse.ok [{ href := "https://" ++ record.remote_name.dropRight 1
                              desc := record.description }]
        | none => ApiResponse.badRequest
      else ApiResponse.ok results
  | none => ApiResponse.badRequest

/-- Modelled from the spec: a store call either succeeds or fails with
`NoRecord` (the queried row is absent) or another storage error
(`StoreFailure`). -/
inductive DbError where
  | noRecord
  | storeFailure
deriving DecidableEq

/-- HTTP status classes produced by the handlers: 200, 400 (client
error) and 501 (server error). -/
inductive HttpStatus where
  | ok
  | badRequest
  | internalServerError
deriving DecidableEq

/-- Whether a status is the server-error status 501. -/
def HttpStatus.isServerError : HttpStatus → Bool
  | .internalServerError => true
  | _ => false

/-- Whether a status is the client-error status 400. -/
def HttpStatus.isClientError : HttpStatus → Bool
  | .badRequest => true
  | _ => false

/-- Status computed by `register` (`routes.rs`) from the outcomes of its
two store calls: record lookup errors map `NoRecord` to 400 and anything
else to 501; an update error maps to 501. -/
def register_status (get_rec : Except DbError DomainRecord)
    (update : Except DbError Unit) : HttpStatus :=
  match get_rec with
  | .ok _ =>
      match update with
      | .ok _ => .ok
      | .error _ => .internalServerError
  | .error .noRecord => .badRequest
  | .error _ => .internalServerError

/-- Status computed by `dnsconfig` (`routes.rs`), same shape as
`register`: lookup `NoRecord` is 400, other lookup errors 501, update
errors 501. -/
def dnsconfig_status (get_rec : Except DbError DomainRecord)
    (update : Except DbError Unit) : HttpStatus :=
  match get_rec with
  | .ok _ =>
      match update with
      | .ok _ => .ok
      | .error _ => .internalServerError
  | .error .noRecord => .badRequest
  | .error _ => .internalServerError

/-- Status computed by `info` (`routes.rs`) from its lookup outcome. -/
def info_status (get_rec : Except DbError DomainRecord) : HttpStatus :=
  match get_rec with
  | .ok _ => .ok
  | .error .noRecord => .badRequest
  | .error _ => .internalServerError

/-- Status computed by `ping` (`routes.rs`) from the outcome of the
public-IP query. -/
def ping_status (get_recs : Except DbError (List DomainRecord)) : HttpStatus :=
  match get_recs with
  | .ok _ => .ok
  | .error .noRecord => .badRequest
  | .error _ => .internalServerError

/-- Status computed by `unsubscribe` (`routes.rs`): zero deletions is a
400, any deletions a 200, a store error a 501. -/
def unsubscribe_status (del : Except DbError Nat) : HttpStatus :=
  match del with
  | .ok 0 => .badRequest
  | .ok _ => .ok
  | .error _ => .internalServerError

/-- Status computed by `subscribe` (`routes.rs`): an existing name is a
400 (`UnavailableName`), `NoRecord` proceeds to the insert whose failure
is a 501, and any other lookup error is a 501. -/
def subscribe_status (get_by_name : Except DbError DomainRecord)
    (add : Except DbError Unit) : HttpStatus :=
  match get_by_name with
  | .ok _ => .badRequest
  | .error .noRecord =>
      match add with
      | .ok _ => .ok
      | .error _ => .internalServerError
  | .error _ => .internalServerError

/-- Status computed by `adddiscovery` (`routes.rs`): lookup `NoRecord`
is 400 and other lookup errors are 501, but any failure of the
`add_discovery` call itself is answered with 400. -/
def adddiscovery_status (get_rec : Except DbError DomainRecord)
    (add : Except DbError Unit) : HttpStatus :=
  match get_rec with
  | .ok _ =>
      match add with
      | .ok _ => .ok
      | .error _ => .badRequest
  | .error .noRecord => .badRequest
  | .error _ => .internalServerError

/-- Status computed by `revokediscovery` (`routes.rs`): lookup
`NoRecord` is 400 and other lookup errors are 501, but any failure of
the `delete_discovery` call itself is answered with 400. -/
def revokediscovery_status (get_rec : Except DbError DomainRecord)
    (del : Except DbError Unit) : HttpStatus :=
  match get_rec with
  | .ok _ =>
      match del with
      | .ok _ => .ok
      | .error _ => .badRequest
  | .error .noRecord => .badRequest
  | .error _ => .internalServerError

/-- Status computed by `discovery` (`routes.rs`): an unknown id maps
`NoRecord` to 400 and other id-resolution errors to 501; any failure of
the public-IP query is answered with 400; when the filtered result list
is empty, any failure of the fallback record load is answered with
400. -/
def discovery_status (get_token : Except DbError String)
    (get_recs : Except DbError (List DomainRecord))
    (get_rec : Except DbError DomainRecord) : HttpStatus :=
  match get_token with
  | .ok token =>
      match get_recs with
      | .ok records =>
          let results : List Discovered :=
            (records.filter (fun item => item.token == token)).map (fun item =>
              { href := "https://" ++ item.local_name.dropRight 1
                desc := item.description })
          if results.isEmpty then
            match get_rec with
            | .ok _ => .ok
            | .error _ => .badRequest
          else .ok
      | .error _ => .badRequest
  | .error .noRecord => .badRequest
  | .error _ => .internalServerError

/-- A sample record used by concrete witnesses: a device `a` registered
from public IP `1.2.3.4`. -/
def recA : DomainRecord :=
  { token := "tokA"
    local_name := "local.a.box.example.com."
    remote_name := "a.box.example.com."
    dns_challenge := none
    local_ip := some "10.0.0.1"
    public_ip := some "1.2.3.4"
    description := "device a"
    email := none
    timestamp := 0 }

/-- A second sample record, a device `b` of the same owner network. -/
def recB : DomainRecord :=
  { token := "tokB"
    local_name := "local.b.box.example.com."
    remote_name := "b.box.example.com."
    dns_challenge := some "ch-b"
    local_ip := some "10.0.0.2"
    public_ip := some "1.2.3.4"
    description := "device b"
    email := none
    timestamp := 5 }

/-- A third sample record on a different public IP. -/
def recC : DomainRecord :=
  { token := "tokC"
    local_name := "local.c.box.example.com."
    remote_name := "c.box.example.com."
    dns_challenge := none
    local_ip := some "10.1.0.3"
    public_ip := some "9.9.9.9"
    description := "device c"
    email := some "c@example.com"
    timestamp := 7 }

/-- Evaluation form of `String.toLower` as a map over the character
list. -/
theorem toLower_data (s : String) : s.toLower = ⟨s.data.map Char.toLower⟩ :=
  String.map_eq Char.toLower s

/-- `Char.toLower` is idempotent: lowering an already lowered character
changes nothing. -/
theorem char_toLower_idem (c : Char) : c.toLower.toLower = c.toLower := by
  by_cases h : c.toNat ≥ 65 ∧ c.toNat ≤ 90
  · have h1 : c.toLower = Char.ofNat (c.toNat + 32) := by
      show (if c.toNat ≥ 65 ∧ c.toNat ≤ 90 then Char.ofNat (c.toNat + 32) else c) = _
      exact if_pos h
    have hv : (c.toNat + 32).isValidChar := Or.inl (by omega)
    have ht : (Char.ofNat (c.toNat + 32)).toNat = c.toNat + 32 := by
      show (dite _ _ _ : Char).toNat = _
      rw [dif_pos hv]
      rfl
    have h2 : ¬((Char.ofNat (c.toNat + 32)).toNat ≥ 65 ∧
        (Char.ofNat (c.toNat + 32)).toNat ≤ 90) := by
      rw [ht]; omega
    rw [h1]
    show (if _ ∧ _ then _ else _) = _
    exact if_neg h2
  · have h1 : c.toLower = c := by
      show (if c.toNat ≥ 65 ∧ c.toNat ≤ 90 then Char.ofNat (c.toNat + 32) else c) = _
      exact if_neg h
    rw [h1, h1]

/-- `String.toLower` is idempotent. -/
theorem string_toLower_idem (s : String) : s.toLower.toLower = s.toLower := by
  show (s.map Char.toLower).map Char.toLower = s.map Char.toLower
  rw [String.map_eq, String.map_eq]
  simp [List.map_map, Function.comp_def, char_toLower_idem]

/-- Concrete evaluation of `domain_for_name` for the scenario of the spec. -/
theorem domain_for_name_myhouse :
    domain_for_name "myhouse" "example.com" = "myhouse.box.example.com." := by
  unfold domain_for_name
  rw [toLower_data]
  decide

/-- A record found by token bears that token. -/
theorem get_record_by_token_token (s : Store) (t : String) (r : DomainRecord)
    (h : get_record_by_token s t = some r) : r.token = t := by
  have := List.find?_some h
  simpa using this

/-- A record found by token is one of the stored records. -/
theorem get_record_by_token_mem (s : Store) (t : String) (r : DomainRecord)
    (h : get_record_by_token s t = some r) : r ∈ s.records :=
  List.mem_of_find?_eq_some h

/-- List form of the replace-then-find property: replacing every element
bearing the sought token and then searching for that token finds the
replacement, provided the token was present. -/
theorem find_token_update (t : String) (new : DomainRecord) (hn : new.token = t) :
    ∀ (l : List DomainRecord) (r : DomainRecord),
      l.find? (fun x => x.token == t) = some r →
      (l.map (fun x => if x.token = new.token then new else x)).find?
        (fun x => x.token == t) = some new := by
  intro l
  induction l with
  | nil =>
    intro r hf
    simp at hf
  | cons a l ih =>
    intro r hf
    by_cases h : a.token = t
    · rw [List.map_cons, if_pos (h.trans hn.symm)]
      exact List.find?_cons_of_pos _ (by simp [hn])
    · rw [List.find?_cons_of_neg _ (by simp [h])] at hf
      rw [List.map_cons, if_neg (fun hc => h (hc.trans hn))]
      rw [List.find?_cons_of_neg _ (by simp [h])]
      exact ih r hf

/-- Looking a token up after a full-record replace keyed on that token
yields the replacement, provided the token was present before. -/
theorem get_record_by_token_update (s : Store) (t : String) (r new : DomainRecord)
    (hf : get_record_by_token s t = some r) (hn : new.token = t) :
    get_record_by_token (update_record s new) t = some new := by
  unfold get_record_by_token at hf ⊢
  unfold update_record
  exact find_token_update t new hn s.records r hf

/-- Claim C4: subscribing `myhouse` under registry domain `example.com`
with no description creates a record with remote name
`myhouse.box.example.com.`, local name `local.myhouse.box.example.com.`,
description `myhouse\x27s server`, no challenge, empty IP fields and
timestamp 0, and returns the name and the minted token. -/
theorem claim_C4 (s : Store) (tok : String)
    (h : get_record_by_name s "myhouse.box.example.com." = none) :
    subscribe s "myhouse" none tok "example.com" =
      (SubscribeResult.ok "myhouse" tok,
       add_record s
         { token := tok
           local_name := "local.myhouse.box.example.com."
           remote_name := "myhouse.box.example.com."
           dns_challenge := none
           local_ip := none
           public_ip := none
           description := "myhouse\x27s server"
           email := none
           timestamp := 0 }) := by
  unfold subscribe
  rw [domain_for_name_myhouse]
  simp only [h]
  rfl

/-- Witness for claim C4 at the empty store. -/
theorem claim_C4_witness :
    subscribe { records := [], discoveries := [] } "myhouse" none "t1" "example.com" =
      (SubscribeResult.ok "myhouse" "t1",
       add_record { records := [], discoveries := [] }
         { token := "t1"
           local_name := "local.myhouse.box.example.com."
           remote_name := "myhouse.box.example.com."
           dns_challenge := none
           local_ip := none
           public_ip := none
           description := "myhouse\x27s server"
           email := none
           timestamp := 0 }) :=
  claim_C4 { records := [], discoveries := [] } "t1" rfl

/-- Claim C6: with a token that has no stored record, `register` and
`dnsconfig` answer 400 (the `NotFound` outcome as surfaced to the
client) and return the store unchanged. -/
theorem claim_C6 (s : Store) (t local_ip public_ip : String) (now : Int)
    (challenge : String) (h : get_record_by_token s t = none) :
    register s t local_ip public_ip now = (ApiResponse.badRequest, s) ∧
    dnsconfig s t challenge = (ApiResponse.badRequest, s) := by
  unfold register dnsconfig
  rw [h]
  exact ⟨rfl, rfl⟩

/-- Witness for claim C6 at a store that does not know the token. -/
theorem claim_C6_witness :
    register { records := [recA], discoveries := [] } "nope" "10.0.0.9" "5.6.7.8" 42 =
      (ApiResponse.badRequest, { records := [recA], discoveries := [] }) ∧
    dnsconfig { records := [recA], discoveries := [] } "nope" "ch" =
      (ApiResponse.badRequest, { records := [recA], discoveries := [] }) :=
  claim_C6 { records := [recA], discoveries := [] } "nope" "10.0.0.9" "5.6.7.8" 42 "ch"
    (by decide)

/-- A sample store: three records, one discovery mapping for `tokA`. -/
def s0 : Store :=
  { records := [recA, recB, recC], discoveries := [("d1", "tokA")] }

/-- Claim C2: on a record that exists, `dnsconfig(t, "c1")` rewrites
only the challenge, `register(t, "10.0.0.2", "203.0.113.5")` rewrites
only the IP fields and the timestamp, and the two compositions keep the
field written first: after `dnsconfig` then `register` the challenge is
still `"c1"`, and after `register` then `dnsconfig` the IP fields are
still the registered ones. -/
theorem claim_C2 (s : Store) (t : String) (r0 : DomainRecord) (now now2 : Int)
    (h : get_record_by_token s t = some r0) :
    get_record_by_token (dnsconfig s t "c1").2 t = some
      { token := r0.token, local_name := r0.local_name,
        remote_name := r0.remote_name, dns_challenge := some "c1",
        local_ip := r0.local_ip, public_ip := r0.public_ip,
        description := r0.description, email := r0.email,
        timestamp := r0.timestamp } ∧
    get_record_by_token (register s t "10.0.0.2" "203.0.113.5" now).2 t = some
      { token := r0.token, local_name := r0.local_name,
        remote_name := r0.remote_name, dns_challenge := r0.dns_challenge,
        local_ip := some "10.0.0.2", public_ip := some "203.0.113.5",
        description := r0.description, email := r0.email,
        timestamp := now } ∧
    get_record_by_token
        (register (dnsconfig s t "c1").2 t "10.0.0.2" "203.0.113.5" now).2 t = some
      { token := r0.token, local_name := r0.local_name,
        remote_name := r0.remote_name, dns_challenge := some "c1",
        local_ip := some "10.0.0.2", public_ip := some "203.0.113.5",
        description := r0.description, email := r0.email,
        timestamp := now } ∧
    get_record_by_token
        (dnsconfig (register s t "10.0.0.2" "203.0.113.5" now2).2 t "c1").2 t = some
      { token := r0.token, local_name := r0.local_name,
        remote_name := r0.remote_name, dns_challenge := some "c1",
        local_ip := some "10.0.0.2", public_ip := some "203.0.113.5",
        description := r0.description, email := r0.email,
        timestamp := now2 } := by
  have ht : r0.token = t := get_record_by_token_token s t r0 h
  have hd : dnsconfig s t "c1" =
      (ApiResponse.ok (), update_record s
        { token := r0.token, local_name := r0.local_name,
          remote_name := r0.remote_name, dns_challenge := some "c1",
          local_ip := r0.local_ip, public_ip := r0.public_ip,
          description := r0.description, email := r0.email,
          timestamp := r0.timestamp }) := by
    unfold dnsconfig
    rw [h]
  have hr : register s t "10.0.0.2" "203.0.113.5" now =
      (ApiResponse.ok (), update_record s
        { token := r0.token, local_name := r0.local_name,
          remote_name := r0.remote_name, dns_challenge := r0.dns_challenge,
          local_ip := some "10.0.0.2", public_ip := some "203.0.113.5",
          description := r0.description, email := r0.email,
          timestamp := now }) := by
    unfold register
    rw [h]
  have hr2 : register s t "10.0.0.2" "203.0.113.5" now2 =
      (ApiResponse.ok (), update_record s
        { token := r0.token, local_name := r0.local_name,
          remote_name := r0.remote_name, dns_challenge := r0.dns_challenge,
          local_ip := some "10.0.0.2", public_ip := some "203.0.113.5",
          description := r0.description, email := r0.email,
          timestamp := now2 }) := by
    unfold register
    rw [h]
  have h1 := get_record_by_token_update s t r0
    { token := r0.token, local_name := r0.local_name,
      remote_name := r0.remote_name, dns_challenge := some "c1",
      local_ip := r0.local_ip, public_ip := r0.public_ip,
      description := r0.description, email := r0.email,
      timestamp := r0.timestamp } h ht
  have h2 := get_record_by_token_update s t r0
    { token := r0.token, local_name := r0.local_name,
      remote_name := r0.remote_name, dns_challenge := r0.dns_challenge,
      local_ip := some "10.0.0.2", public_ip := some "203.0.113.5",
      description := r0.description, email := r0.email,
      timestamp := now } h ht
  have h2b := get_record_by_token_update s t r0
    { token := r0.token, local_name := r0.local_name,
      remote_name := r0.remote_name, dns_challenge := r0.dns_challenge,
      local_ip := some "10.0.0.2", public_ip := some "203.0.113.5",
      description := r0.description, email := r0.email,
      timestamp := now2 } h ht
  refine ⟨by rw [hd]; exact h1, by rw [hr]; exact h2, ?_, ?_⟩
  · rw [hd]
    have hreg : register (update_record s
        { token := r0.token, local_name := r0.local_name,
          remote_name := r0.remote_name, dns_challenge := some "c1",
          local_ip := r0.local_ip, public_ip := r0.public_ip,
          description := r0.description, email := r0.email,
          timestamp := r0.timestamp }) t "10.0.0.2" "203.0.113.5" now =
        (ApiResponse.ok (), update_record (update_record s
          { token := r0.token, local_name := r0.local_name,
            remote_name := r0.remote_name, dns_challenge := some "c1",
            local_ip := r0.local_ip, public_ip := r0.public_ip,
            description := r0.description, email := r0.email,
            timestamp := r0.timestamp })
          { token := r0.token, local_name := r0.local_name,
            remote_name := r0.remote_name, dns_challenge := some "c1",
            local_ip := some "10.0.0.2", public_ip := some "203.0.113.5",
            description := r0.description, email := r0.email,
            timestamp := now }) := by
      unfold register
      rw [h1]
    rw [hreg]
    exact get_record_by_token_update _ t _ _ h1 ht
  · rw [hr2]
    have hdns : dnsconfig (update_record s
        { token := r0.token, local_name := r0.local_name,
          remote_name := r0.remote_name, dns_challenge := r0.dns_challenge,
          local_ip := some "10.0.0.2", public_ip := some "203.0.113.5",
          description := r0.description, email := r0.email,
          timestamp := now2 }) t "c1" =
        (ApiResponse.ok (), update_record (update_record s
          { token := r0.token, local_name := r0.local_name,
            remote_name := r0.remote_name, dns_challenge := r0.dns_challenge,
            local_ip := some "10.0.0.2", public_ip := some "203.0.113.5",
            description := r0.description, email := r0.email,
            timestamp := now2 })
          { token := r0.token, local_name := r0.local_name,
            remote_name := r0.remote_name, dns_challenge := some "c1",
            local_ip := some "10.0.0.2", public_ip := some "203.0.113.5",
            description := r0.description, email := r0.email,
            timestamp := now2 }) := by
      unfold dnsconfig
      rw [h2b]
    rw [hdns]
    exact get_record_by_token_update _ t _ _ h2b ht

/-- Witness for claim C2 at the sample store: after `dnsconfig` then
`register` on `tokA` the challenge is still present, together with the
registered IPs. -/
theorem claim_C2_witness :
    get_record_by_token
        (register (dnsconfig s0 "tokA" "c1").2 "tokA" "10.0.0.2" "203.0.113.5" 100).2
        "tokA" = some
      { token := "tokA", local_name := "local.a.box.example.com.",
        remote_name := "a.box.example.com.", dns_challenge := some "c1",
        local_ip := some "10.0.0.2", public_ip := some "203.0.113.5",
        description := "device a", email := none, timestamp := 100 } ∧
    get_record_by_token
        (dnsconfig (register s0 "tokA" "10.0.0.2" "203.0.113.5" 200).2 "tokA" "c1").2
        "tokA" = some
      { token := "tokA", local_name := "local.a.box.example.com.",
        remote_name := "a.box.example.com.", dns_challenge := some "c1",
        local_ip := some "10.0.0.2", public_ip := some "203.0.113.5",
        description := "device a", email := none, timestamp := 200 } :=
  ⟨(claim_C2 s0 "tokA" recA 100 200 (by decide)).2.2.1,
   (claim_C2 s0 "tokA" recA 100 200 (by decide)).2.2.2⟩

/-- A search for a key finds nothing after every pair with that key has
been filtered away. -/
theorem find_filter_none (l : List (String × String)) (id : String) :
    (l.filter (fun p => !(p.1 == id))).find? (fun p => p.1 == id) = none := by
  rw [List.find?_eq_none]
  intro x hx
  have := (List.mem_filter.mp hx).2
  simp at this
  simp [this]

/-- Claim C5: for any existing token, `revokediscovery(token, id)`
succeeds and removes the mapping for `id` by id alone, with no check
that the mapping belongs to that token; afterwards the id resolves to no
token and `discovery(id, P)` answers 400 (the `NotFound` outcome as
surfaced to the client) for every caller IP. -/
theorem claim_C5 (s : Store) (token id P : String) (r : DomainRecord)
    (h : get_record_by_token s token = some r) :
    (revokediscovery s token id).1 = ApiResponse.ok () ∧
    get_token_for_discovery (revokediscovery s token id).2 id = none ∧
    discovery (revokediscovery s token id).2 id P = ApiResponse.badRequest := by
  have hrev : revokediscovery s token id = (ApiResponse.ok (), delete_discovery s id) := by
    unfold revokediscovery
    rw [h]
  have hnone : get_token_for_discovery (delete_discovery s id) id = none := by
    unfold get_token_for_discovery delete_discovery
    rw [find_filter_none]
    rfl
  refine ⟨by rw [hrev], by rw [hrev]; exact hnone, ?_⟩
  rw [hrev]
  unfold discovery
  rw [hnone]

/-- Witness for claim C5 at a store whose only mapping for `d9` was
created for `tokB`, revoked through `tokA`. -/
theorem claim_C5_witness :
    (revokediscovery { records := [recA], discoveries := [("d9", "tokB")] }
        "tokA" "d9").1 = ApiResponse.ok () ∧
    get_token_for_discovery
      (revokediscovery { records := [recA], discoveries := [("d9", "tokB")] }
        "tokA" "d9").2 "d9" = none ∧
    discovery
      (revokediscovery { records := [recA], discoveries := [("d9", "tokB")] }
        "tokA" "d9").2 "d9" "1.2.3.4" = ApiResponse.badRequest :=
  claim_C5 { records := [recA], discoveries := [("d9", "tokB")] } "tokA" "d9" "1.2.3.4"
    recA (by decide)

/-- Filtering the public-IP query result by token equals filtering the
stored records by the conjunction of both tests. -/
theorem records_filter_comm (s : Store) (P tok : String) :
    (get_records_by_public_ip s P).filter (fun item => item.token == tok) =
      s.records.filter (fun r => r.public_ip == some P && r.token == tok) := by
  unfold get_records_by_public_ip
  rw [List.filter_filter]
  apply List.filter_congr
  intro x _
  exact Bool.and_comm _ _

/-- Evaluation of `discovery` once the id has resolved to a token. -/
theorem discovery_some (s : Store) (id P tok : String)
    (htok : get_token_for_discovery s id = some tok) :
    discovery s id P =
      (if (((get_records_by_public_ip s P).filter (fun item => item.token == tok)).map
            (fun item =>
              ({ href := "https://" ++ item.local_name.dropRight 1
                 desc := item.description } : Discovered))).isEmpty then
        match get_record_by_token s tok with
        | some record =>
            ApiResponse.ok [{ href := "https://" ++ record.remote_name.dropRight 1
                              desc := record.description }]
        | none => ApiResponse.badRequest
      else ApiResponse.ok (((get_records_by_public_ip s P).filter
          (fun item => item.token == tok)).map
            (fun item =>
              { href := "https://" ++ item.local_name.dropRight 1
                desc := item.description }))) := by
  unfold discovery
  rw [htok]

/-- Claim C1: `discovery(id, P)` implements the two-tier rendezvous
algorithm.  An unmapped id answers 400 (the `NotFound` outcome as
surfaced to the client); otherwise, when stored records with
`publicIp == P` and `token == ownerToken` exist, those very records are
returned keyed on their local names; otherwise a single entry keyed on
the remote name of the owner record is returned.  In every href the final
character of the stored name (the trailing separator) is stripped. -/
theorem claim_C1 (s : Store) (id P : String) :
    (get_token_for_discovery s id = none → discovery s id P = ApiResponse.badRequest) ∧
    (∀ tok, get_token_for_discovery s id = some tok →
      (s.records.filter (fun r => r.public_ip == some P && r.token == tok) ≠ [] →
        discovery s id P = ApiResponse.ok
          ((s.records.filter (fun r => r.public_ip == some P && r.token == tok)).map
            (fun item =>
              { href := "https://" ++ item.local_name.dropRight 1
                desc := item.description }))) ∧
      (s.records.filter (fun r => r.public_ip == some P && r.token == tok) = [] →
        ∀ owner, get_record_by_token s tok = some owner →
          discovery s id P = ApiResponse.ok
            [{ href := "https://" ++ owner.remote_name.dropRight 1
               desc := owner.description }])) := by
  constructor
  · intro hnone
    unfold discovery
    rw [hnone]
  · intro tok htok
    have hcomb := records_filter_comm s P tok
    constructor
    · intro hne
      rw [discovery_some s id P tok htok]
      have hmapne : (((get_records_by_public_ip s P).filter
          (fun item => item.token == tok)).map
            (fun item =>
              ({ href := "https://" ++ item.local_name.dropRight 1
                 desc := item.description } : Discovered))) ≠ [] := by
        rw [hcomb]
        intro hmape
        exact hne (List.map_eq_nil_iff.mp hmape)
      rw [if_neg (by simpa [List.isEmpty_iff] using hmapne), hcomb]
    · intro hemp owner howner
      rw [discovery_some s id P tok htok]
      rw [if_pos (by rw [hcomb, hemp]; rfl), howner]

/-- Witness for claim C1 at the sample store: `d1` resolves to `tokA`
whose record shares the public IP of the caller, so the local name is
returned; from a foreign IP the remote name is returned instead. -/
theorem claim_C1_witness :
    discovery s0 "d1" "1.2.3.4" = ApiResponse.ok
      [{ href := "https://local.a.box.example.com", desc := "device a" }] ∧
    discovery s0 "d1" "8.8.8.8" = ApiResponse.ok
      [{ href := "https://a.box.example.com", desc := "device a" }] := by
  constructor
  · have h := (((claim_C1 s0 "d1" "1.2.3.4").2 "tokA" (by decide)).1 (by decide))
    rw [h]
    decide
  · have h := (((claim_C1 s0 "d1" "8.8.8.8").2 "tokA" (by decide)).2 (by decide)
      recA (by decide))
    rw [h]
    decide

/-- Claim C10: when a discovery id still resolves to a token but no
record bears that token any longer, `discovery(id, P)` answers 400 (a
client-error result) instead of an empty list of entries. -/
theorem claim_C10 (s : Store) (id P tok : String)
    (h1 : get_token_for_discovery s id = some tok)
    (h2 : get_record_by_token s tok = none) :
    discovery s id P = ApiResponse.badRequest ∧
    ∀ l, discovery s id P ≠ ApiResponse.ok l := by
  have hall : ∀ x ∈ s.records, ¬(x.token == tok) = true :=
    List.find?_eq_none.mp h2
  have hfil : (get_records_by_public_ip s P).filter
      (fun item => item.token == tok) = [] := by
    rw [List.filter_eq_nil_iff]
    intro x hx
    exact hall x (List.mem_of_mem_filter hx)
  have hres : discovery s id P = ApiResponse.badRequest := by
    rw [discovery_some s id P tok h1]
    rw [if_pos (by rw [hfil]; rfl), h2]
  exact ⟨hres, by intro l hcon; rw [hres] at hcon; exact ApiResponse.noConfusion hcon⟩

/-- Witness for claim C10 at a store whose mapping `dGone` points to a
token with no record. -/
theorem claim_C10_witness :
    discovery { records := [recA], discoveries := [("dGone", "tokGone")] }
      "dGone" "1.2.3.4" = ApiResponse.badRequest ∧
    discovery { records := [recA], discoveries := [("dGone", "tokGone")] }
      "dGone" "1.2.3.4" ≠ ApiResponse.ok [] :=
  ⟨(claim_C10 { records := [recA], discoveries := [("dGone", "tokGone")] }
      "dGone" "1.2.3.4" "tokGone" (by decide) (by decide)).1,
   (claim_C10 { records := [recA], discoveries := [("dGone", "tokGone")] }
      "dGone" "1.2.3.4" "tokGone" (by decide) (by decide)).2 []⟩

/-- Claim C7: `ping(P)` returns exactly the stored records whose public
IP equals that of the caller, the own record of the caller included, each mapped to
an entry whose href is `https://` plus the local name with the trailing
separator stripped and whose description is that of the record. -/
theorem claim_C7 (s : Store) (P : String) :
    ∃ l, ping s P = ApiResponse.ok l ∧
      l = (s.records.filter (fun r => r.public_ip == some P)).map
        (fun r =>
          { href := "https://" ++ r.local_name.dropRight 1
            desc := r.description }) ∧
      ∀ d, d ∈ l ↔ ∃ r, r ∈ s.records ∧ r.public_ip = some P ∧
        d = { href := "https://" ++ r.local_name.dropRight 1
              desc := r.description } := by
  refine ⟨_, rfl, rfl, ?_⟩
  intro d
  constructor
  · intro hd
    obtain ⟨r, hr, hh⟩ := List.mem_map.mp hd
    obtain ⟨hrm, hrp⟩ := List.mem_filter.mp hr
    exact ⟨r, hrm, by simpa using hrp, hh.symm⟩
  · rintro ⟨r, hrm, hrp, hd⟩
    exact List.mem_map.mpr ⟨r, List.mem_filter.mpr ⟨hrm, by simpa using hrp⟩, hd.symm⟩

/-- Witness for claim C7 at the sample store: the two records on
`1.2.3.4` are returned, in store order, with stripped local names. -/
theorem claim_C7_witness :
    ping s0 "1.2.3.4" = ApiResponse.ok
      [{ href := "https://local.a.box.example.com", desc := "device a" },
       { href := "https://local.b.box.example.com", desc := "device b" }] := by
  obtain ⟨l, hl, hfil, hmem⟩ := claim_C7 s0 "1.2.3.4"
  rw [hl, hfil]
  decide

/-- Evaluation of `subscribe` when the derived name is already taken. -/
theorem subscribe_some (s : Store) (name : String) (desc : Option String)
    (tok dom : String) (q : DomainRecord)
    (h : get_record_by_name s (domain_for_name name dom) = some q) :
    subscribe s name desc tok dom = (SubscribeResult.unavailableName, s) := by
  unfold subscribe
  simp only [h]

/-- Evaluation of `subscribe` when the derived name is free: a new
record is appended, built from the minted token and the derived name. -/
theorem subscribe_none (s : Store) (name : String) (desc : Option String)
    (tok dom : String)
    (h : get_record_by_name s (domain_for_name name dom) = none) :
    subscribe s name desc tok dom =
      (SubscribeResult.ok name tok, add_record s
        { token := tok
          local_name := "local." ++ domain_for_name name dom
          remote_name := domain_for_name name dom
          dns_challenge := none
          local_ip := none
          public_ip := none
          description := match desc with
            | some d => d
            | none => name ++ "\x27s server"
          email := none
          timestamp := 0 }) := by
  unfold subscribe
  simp only [h]

/-- Claim C8: a second `subscribe` for a name whose derived remote name
is already stored answers `UnavailableName` and changes nothing; the
first `subscribe` for a name succeeds with the minted token; and the
stored remote name is lowercase whatever the case of the input. -/
theorem claim_C8 (s : Store) (name : String) (desc : Option String)
    (tok dom : String) :
    (∀ r, get_record_by_name s (domain_for_name name dom) = some r →
      subscribe s name desc tok dom = (SubscribeResult.unavailableName, s)) ∧
    (get_record_by_name s (domain_for_name name dom) = none →
      ∃ rec, subscribe s name desc tok dom =
          (SubscribeResult.ok name tok, add_record s rec) ∧
        rec.token = tok ∧ rec.remote_name = domain_for_name name dom) ∧
    (domain_for_name name dom).toLower = domain_for_name name dom := by
  refine ⟨?_, ?_, string_toLower_idem (name ++ ".box." ++ dom ++ ".")⟩
  · intro r hr
    exact subscribe_some s name desc tok dom r hr
  · intro hn
    exact ⟨_, subscribe_none s name desc tok dom hn, rfl, rfl⟩

/-- The record stored by the first `subscribe` of the C8 scenario. -/
def recMyhouse : DomainRecord :=
  { token := "t1"
    local_name := "local.myhouse.box.example.com."
    remote_name := "myhouse.box.example.com."
    dns_challenge := none
    local_ip := none
    public_ip := none
    description := "myhouse\x27s server"
    email := none
    timestamp := 0 }

/-- Witness for claim C8: subscribing `MyHouse` after `myhouse` is
already stored answers `UnavailableName` and leaves the store as it
was. -/
theorem claim_C8_witness :
    subscribe { records := [recMyhouse], discoveries := [] } "MyHouse" none
        "t2" "Example.COM" =
      (SubscribeResult.unavailableName,
       { records := [recMyhouse], discoveries := [] }) := by
  have hd : domain_for_name "MyHouse" "Example.COM" = "myhouse.box.example.com." := by
    unfold domain_for_name
    rw [toLower_data]
    decide
  exact (claim_C8 { records := [recMyhouse], discoveries := [] } "MyHouse" none
    "t2" "Example.COM").1 recMyhouse (by rw [hd]; decide)

/-- A record present after a full-record replace is either the
replacement or one of the previous records. -/
theorem mem_update_record (s : Store) (new r : DomainRecord)
    (h : r ∈ (update_record s new).records) : r = new ∨ r ∈ s.records := by
  unfold update_record at h
  obtain ⟨y, hy, hr⟩ := List.mem_map.mp h
  by_cases hcase : y.token = new.token
  · rw [if_pos hcase] at hr
    exact Or.inl hr.symm
  · rw [if_neg hcase] at hr
    exact Or.inr (hr ▸ hy)

/-- Every record stored after `register` matches a previous record on
token and remote name. -/
theorem register_records (s : Store) (t lip pip : String) (now : Int)
    (r : DomainRecord) (h : r ∈ (register s t lip pip now).2.records) :
    ∃ r0, r0 ∈ s.records ∧ r0.token = r.token ∧ r0.remote_name = r.remote_name := by
  cases hget : get_record_by_token s t with
  | none =>
    rw [show (register s t lip pip now).2 = s by unfold register; rw [hget]] at h
    exact ⟨r, h, rfl, rfl⟩
  | some rec =>
    have hreg : (register s t lip pip now).2 = update_record s
        { token := rec.token, local_name := rec.local_name,
          remote_name := rec.remote_name, dns_challenge := rec.dns_challenge,
          local_ip := some lip, public_ip := some pip,
          description := rec.description, email := rec.email,
          timestamp := now } := by
      unfold register
      rw [hget]
    rw [hreg] at h
    rcases mem_update_record _ _ _ h with hnew | hold
    · exact ⟨rec, get_record_by_token_mem s t rec hget, by rw [hnew], by rw [hnew]⟩
    · exact ⟨r, hold, rfl, rfl⟩

/-- Every record stored after `dnsconfig` matches a previous record on
token and remote name. -/
theorem dnsconfig_records (s : Store) (t ch : String)
    (r : DomainRecord) (h : r ∈ (dnsconfig s t ch).2.records) :
    ∃ r0, r0 ∈ s.records ∧ r0.token = r.token ∧ r0.remote_name = r.remote_name := by
  cases hget : get_record_by_token s t with
  | none =>
    rw [show (dnsconfig s t ch).2 = s by unfold dnsconfig; rw [hget]] at h
    exact ⟨r, h, rfl, rfl⟩
  | some rec =>
    have hdns : (dnsconfig s t ch).2 = update_record s
        { token := rec.token, local_name := rec.local_name,
          remote_name := rec.remote_name, dns_challenge := some ch,
          local_ip := rec.local_ip, public_ip := rec.public_ip,
          description := rec.description, email := rec.email,
          timestamp := rec.timestamp } := by
      unfold dnsconfig
      rw [hget]
    rw [hdns] at h
    rcases mem_update_record _ _ _ h with hnew | hold
    · exact ⟨rec, get_record_by_token_mem s t rec hget, by rw [hnew], by rw [hnew]⟩
    · exact ⟨r, hold, rfl, rfl⟩

/-- Counterexample to claim C3: the remote name stored for the request
`myhouse` under registry domain `example.com` is
`myhouse.box.example.com.`, which differs from the claimed
`lowercase("myhouse" + "." + "example.com" + ".")` because the source
inserts `.box.` between the requested name and the domain. -/
theorem claim_C3_counterexample :
    (subscribe { records := [], discoveries := [] } "myhouse" none "t1"
        "example.com").2.records.map (fun r => r.remote_name) =
      ["myhouse.box.example.com."] ∧
    ("myhouse.box.example.com." : String) ≠
      ("myhouse" ++ "." ++ "example.com" ++ ".").toLower := by
  constructor
  · unfold subscribe
    rw [domain_for_name_myhouse]
    decide
  · rw [toLower_data]
    decide

/-- Claim C3 as amended: the remote name stored by `subscribe` is
`lowercase(requestedName + ".box." + registryDomain + ".")` — with the
fixed `.box.` infix of `domain_for_name` — and later operations never
change the remote name attached to a token: `register` and `dnsconfig`
rewrite records in place keeping token and remote name, `unsubscribe`
only removes records, `adddiscovery` and `revokediscovery` leave the
records untouched, and `subscribe` keeps every existing record. -/
theorem claim_C3_amended (s : Store) (name : String) (desc : Option String)
    (tok dom : String) :
    (get_record_by_name s (domain_for_name name dom) = none →
      ∃ rec, (subscribe s name desc tok dom).2 = add_record s rec ∧
        rec.token = tok ∧
        rec.remote_name = (name ++ ".box." ++ dom ++ ".").toLower) ∧
    (∀ t lip pip now r, r ∈ (register s t lip pip now).2.records →
      ∃ r0, r0 ∈ s.records ∧ r0.token = r.token ∧
        r0.remote_name = r.remote_name) ∧
    (∀ t ch r, r ∈ (dnsconfig s t ch).2.records →
      ∃ r0, r0 ∈ s.records ∧ r0.token = r.token ∧
        r0.remote_name = r.remote_name) ∧
    (∀ t r, r ∈ (unsubscribe s t).2.records → r ∈ s.records) ∧
    (∀ t d, (adddiscovery s t d).2.records = s.records) ∧
    (∀ t d, (revokediscovery s t d).2.records = s.records) ∧
    (∀ r, r ∈ s.records → r ∈ (subscribe s name desc tok dom).2.records) := by
  refine ⟨?_, register_records s, dnsconfig_records s, ?_, ?_, ?_, ?_⟩
  · intro hn
    exact ⟨_, by rw [subscribe_none s name desc tok dom hn], rfl, rfl⟩
  · intro t r h
    unfold unsubscribe delete_record_by_token at h
    rcases hlen : (s.records.filter (fun x => x.token == t)).length with _ | n
    · rw [hlen] at h
      exact List.mem_of_mem_filter h
    · rw [hlen] at h
      exact List.mem_of_mem_filter h
  · intro t d
    cases hget : get_record_by_token s t with
    | none => unfold adddiscovery; rw [hget]
    | some rec => unfold adddiscovery; rw [hget]; rfl
  · intro t d
    cases hget : get_record_by_token s t with
    | none => unfold revokediscovery; rw [hget]
    | some rec => unfold revokediscovery; rw [hget]; rfl
  · intro r hr
    cases hname : get_record_by_name s (domain_for_name name dom) with
    | some q =>
      rw [show (subscribe s name desc tok dom).2 = s from by
        rw [subscribe_some s name desc tok dom q hname]]
      exact hr
    | none =>
      rw [show (subscribe s name desc tok dom).2 = _ from by
        rw [subscribe_none s name desc tok dom hname]]
      exact List.mem_append_left _ hr

/-- Witness for the amended claim C3 at the empty store: the stored
remote name is the lowercase of `myhouse` + `.box.` + `example.com` +
`.`. -/
theorem claim_C3_amended_witness :
    ∃ rec, (subscribe { records := [], discoveries := [] } "myhouse" none "t1"
        "example.com").2 = add_record { records := [], discoveries := [] } rec ∧
      rec.token = "t1" ∧
      rec.remote_name = ("myhouse" ++ ".box." ++ "example.com" ++ ".").toLower :=
  (claim_C3_amended { records := [], discoveries := [] } "myhouse" none "t1"
    "example.com").1 rfl

/-- Counterexample to claim C9: `adddiscovery` answers a `StoreFailure`
of the mapping insertion with 400, a client-error status, not a
server-error status. -/
theorem claim_C9_counterexample :
    adddiscovery_status (Except.ok recA) (Except.error DbError.storeFailure) =
      HttpStatus.badRequest ∧
    HttpStatus.badRequest.isClientError = true ∧
    HttpStatus.badRequest.isServerError = false :=
  ⟨rfl, rfl, rfl⟩

/-- Claim C9 as amended: a `StoreFailure` of the token, name or
discovery-id lookup, of a record update or insert, or of the delete by
token, is surfaced as the server-error status 501; but `adddiscovery`
and `revokediscovery` surface a `StoreFailure` of the mapping mutation
itself as 400, and `discovery` surfaces a `StoreFailure` of the
public-IP query or of the fallback record load as 400 — client-error
statuses. -/
theorem claim_C9_amended :
    (∀ u, register_status (Except.error DbError.storeFailure) u =
      HttpStatus.internalServerError) ∧
    (∀ r, register_status (Except.ok r) (Except.error DbError.storeFailure) =
      HttpStatus.internalServerError) ∧
    (∀ u, dnsconfig_status (Except.error DbError.storeFailure) u =
      HttpStatus.internalServerError) ∧
    (∀ r, dnsconfig_status (Except.ok r) (Except.error DbError.storeFailure) =
      HttpStatus.internalServerError) ∧
    info_status (Except.error DbError.storeFailure) =
      HttpStatus.internalServerError ∧
    ping_status (Except.error DbError.storeFailure) =
      HttpStatus.internalServerError ∧
    unsubscribe_status (Except.error DbError.storeFailure) =
      HttpStatus.internalServerError ∧
    (∀ a, subscribe_status (Except.error DbError.storeFailure) a =
      HttpStatus.internalServerError) ∧
    subscribe_status (Except.error DbError.noRecord)
      (Except.error DbError.storeFailure) = HttpStatus.internalServerError ∧
    (∀ a, adddiscovery_status (Except.error DbError.storeFailure) a =
      HttpStatus.internalServerError) ∧
    (∀ r, adddiscovery_status (Except.ok r) (Except.error DbError.storeFailure) =
      HttpStatus.badRequest) ∧
    (∀ d, revokediscovery_status (Except.error DbError.storeFailure) d =
      HttpStatus.internalServerError) ∧
    (∀ r, revokediscovery_status (Except.ok r) (Except.error DbError.storeFailure) =
      HttpStatus.badRequest) ∧
    (∀ gr grec, discovery_status (Except.error DbError.storeFailure) gr grec =
      HttpStatus.internalServerError) ∧
    (∀ t grec, discovery_status (Except.ok t) (Except.error DbError.storeFailure)
      grec = HttpStatus.badRequest) ∧
    (∀ t records, records.filter (fun item => item.token == t) = [] →
      discovery_status (Except.ok t) (Except.ok records)
        (Except.error DbError.storeFailure) = HttpStatus.badRequest) := by
  refine ⟨fun u => rfl, fun r => rfl, fun u => rfl, fun r => rfl, rfl, rfl, rfl,
    fun a => rfl, rfl, fun a => rfl, fun r => rfl, fun d => rfl, fun r => rfl,
    fun gr grec => rfl, fun t grec => rfl, ?_⟩
  intro t records hfil
  unfold discovery_status
  simp only [hfil, List.map_nil, List.isEmpty_nil, if_true]

/-- Witness for the amended claim C9: one server-error mapping and the
two client-error mappings, at concrete call outcomes. -/
theorem claim_C9_amended_witness :
    register_status (Except.error DbError.storeFailure) (Except.ok ()) =
      HttpStatus.internalServerError ∧
    adddiscovery_status (Except.ok recB) (Except.error DbError.storeFailure) =
      HttpStatus.badRequest ∧
    discovery_status (Except.ok "tokA") (Except.ok ([] : List DomainRecord))
      (Except.error DbError.storeFailure) = HttpStatus.badRequest :=
  ⟨claim_C9_amended.1 (Except.ok ()),
   claim_C9_amended.2.2.2.2.2.2.2.2.2.2.1 recB,
   claim_C9_amended.2.2.2.2.2.2.2.2.2.2.2.2.2.2.2 "tokA" [] rfl⟩

end RegServer
